import Mathlib

/-!
Verification of the photon image-processing crate's core data model
(`src/crate/src/lib.rs`) against its specification.

Machine bytes (`u8`) are embedded as `Nat`; Rust `Vec<u8>` as `List Nat`;
fallible code (Rust panics via `.unwrap()` / explicit `panic!`) is embedded
as `Option`/`Except` results, `none`/`error` marking the failure.  The
external codec collaborator (the `image` crate) and the base64 transport
codec are not part of this repository; functions that call them are
parameterized over them.
-/

namespace Photon

/-- The `PhotonImage` struct of lib.rs: raw pixels plus width and height. -/
structure PhotonImage where
  raw_pixels : List Nat
  width : Nat
  height : Nat
deriving DecidableEq, Repr

/-- The output of the external codec collaborator: an RGBA8 byte buffer
together with the decoded dimensions (`img.to_rgba8()`, `img.width()`,
`img.height()` in the source). -/
structure DecodedImage where
  pixels : List Nat
  width : Nat
  height : Nat
deriving DecidableEq, Repr

/-- Embeds `PhotonImage::new`: stores the supplied buffer and dimensions
unchanged, with no validation. -/
def PhotonImage.new (raw_pixels : List Nat) (width height : Nat) : PhotonImage :=
  { raw_pixels := raw_pixels, width := width, height := height }

/-- Embeds `PhotonImage::get_width`. -/
def PhotonImage.get_width (img : PhotonImage) : Nat := img.width

/-- Embeds `PhotonImage::get_raw_pixels` (the Rust clone is value equality here). -/
def PhotonImage.get_raw_pixels (img : PhotonImage) : List Nat := img.raw_pixels

/-- Embeds `PhotonImage::get_height`. -/
def PhotonImage.get_height (img : PhotonImage) : Nat := img.height

/-- Embeds `PhotonImage::new_from_byteslice`, parameterized over the external
decoder `image::load_from_memory` (whose failure, unwrapped into a panic in
the source, is embedded as `none`). -/
def PhotonImage.new_from_byteslice
    (load_from_memory : List Nat → Option DecodedImage)
    (vec : List Nat) : Option PhotonImage :=
  match load_from_memory vec with
  | none => none
  | some img => some { raw_pixels := img.pixels, width := img.width, height := img.height }

/-- Embeds `base64_to_vec`, parameterized over the external base64 decoder
(`base64::decode`); its failure, unwrapped into a panic, is embedded as
`none`. -/
def base64_to_vec (decode : String → Option (List Nat)) (base64 : String) :
    Option (List Nat) :=
  decode base64

/-- Embeds `base64_to_image`: base64-decode, then decode the image bytes,
then take the RGBA8 bytes and dimensions. -/
def base64_to_image (decode : String → Option (List Nat))
    (load_from_memory : List Nat → Option DecodedImage)
    (base64 : String) : Option PhotonImage :=
  match base64_to_vec decode base64 with
  | none => none
  | some bytes =>
    match load_from_memory bytes with
    | none => none
    | some img => some { raw_pixels := img.pixels, width := img.width, height := img.height }

/-- Embeds `PhotonImage::new_from_base64`, which delegates to `base64_to_image`. -/
def PhotonImage.new_from_base64 (decode : String → Option (List Nat))
    (load_from_memory : List Nat → Option DecodedImage)
    (base64 : String) : Option PhotonImage :=
  base64_to_image decode load_from_memory base64

/-- The `Rgb` struct of lib.rs. -/
structure Rgb where
  r : Nat
  g : Nat
  b : Nat
deriving DecidableEq, Repr

/-- Embeds `Rgb::new`. -/
def Rgb.new (r g b : Nat) : Rgb := { r := r, g := g, b := b }

/-- Embeds `Rgb::set_red`. -/
def Rgb.set_red (c : Rgb) (r : Nat) : Rgb := { c with r := r }

/-- Embeds `Rgb::set_green`. -/
def Rgb.set_green (c : Rgb) (g : Nat) : Rgb := { c with g := g }

/-- Embeds `Rgb::set_blue`. -/
def Rgb.set_blue (c : Rgb) (b : Nat) : Rgb := { c with b := b }

/-- Embeds `Rgb::get_red`. -/
def Rgb.get_red (c : Rgb) : Nat := c.r

/-- Embeds `Rgb::get_green`. -/
def Rgb.get_green (c : Rgb) : Nat := c.g

/-- Embeds `Rgb::get_blue`. -/
def Rgb.get_blue (c : Rgb) : Nat := c.b

/-- Embeds `impl From<Vec<u8>> for Rgb`: the panic on wrong length is the
`none` branch. -/
def Rgb.from_vec (vec : List Nat) : Option Rgb :=
  if vec.length ≠ 3 then none
  else some (Rgb.new (vec.getD 0 0) (vec.getD 1 0) (vec.getD 2 0))

/-- The `Rgba` struct of lib.rs. -/
structure Rgba where
  r : Nat
  g : Nat
  b : Nat
  a : Nat
deriving DecidableEq, Repr

/-- Embeds `Rgba::new`. -/
def Rgba.new (r g b a : Nat) : Rgba := { r := r, g := g, b := b, a := a }

/-- Embeds `Rgba::set_red`. -/
def Rgba.set_red (c : Rgba) (r : Nat) : Rgba := { c with r := r }

/-- Embeds `Rgba::set_green`. -/
def Rgba.set_green (c : Rgba) (g : Nat) : Rgba := { c with g := g }

/-- Embeds `Rgba::set_blue`. -/
def Rgba.set_blue (c : Rgba) (b : Nat) : Rgba := { c with b := b }

/-- Embeds `Rgba::set_alpha`. -/
def Rgba.set_alpha (c : Rgba) (a : Nat) : Rgba := { c with a := a }

/-- Embeds `Rgba::get_red`. -/
def Rgba.get_red (c : Rgba) : Nat := c.r

/-- Embeds `Rgba::get_green`. -/
def Rgba.get_green (c : Rgba) : Nat := c.g

/-- Embeds `Rgba::get_blue`. -/
def Rgba.get_blue (c : Rgba) : Nat := c.b

/-- Embeds `Rgba::get_alpha`. -/
def Rgba.get_alpha (c : Rgba) : Nat := c.a

/-- Embeds `impl From<Vec<u8>> for Rgba`: the panic on wrong length is the
`none` branch. -/
def Rgba.from_vec (vec : List Nat) : Option Rgba :=
  if vec.length ≠ 4 then none
  else some (Rgba.new (vec.getD 0 0) (vec.getD 1 0) (vec.getD 2 0) (vec.getD 3 0))

end Photon

namespace Photon

/-- The channel selector of the spec's data model: an enumerated tag
addressing one byte per pixel. -/
inductive Channel where
  | red
  | green
  | blue
  | alpha
deriving DecidableEq, Repr

/-- Reads the selected channel of an RGBA pixel. -/
def Rgba.getChannel (p : Rgba) : Channel → Nat
  | Channel.red => p.r
  | Channel.green => p.g
  | Channel.blue => p.b
  | Channel.alpha => p.a

/-- Writes the selected channel of an RGBA pixel. -/
def Rgba.setChannel (p : Rgba) : Channel → Nat → Rgba
  | Channel.red, v => { p with r := v }
  | Channel.green, v => { p with g := v }
  | Channel.blue, v => { p with b := v }
  | Channel.alpha, v => { p with a := v }

/-- Exchanges the byte values of two channels within one pixel. -/
def swapPixel (p : Rgba) (a b : Channel) : Rgba :=
  (p.setChannel a (p.getChannel b)).setChannel b (p.getChannel a)

/-- Modelled from the spec: `swap_channels(buffer, a, b)` from the channels
module (not under src/) exchanges two channel's byte values per pixel; the
buffer is modelled as its list of RGBA pixels. -/
def swap_channels (buf : List Rgba) (a b : Channel) : List Rgba :=
  buf.map (fun p => swapPixel p a b)

/-- Modelled from the spec: the clamp used by `adjust_channel` — add a
signed delta to an 8-bit channel value, saturating at 0 and at 255. -/
def clampAdd (v : Nat) (delta : Int) : Nat :=
  (max 0 (min 255 ((v : Int) + delta))).toNat

/-- Modelled from the spec: `adjust_channel(buffer, channel, delta)` from the
channels module (not under src/) adds a signed delta to every pixel's
selected channel, clamped to [0,255] on both ends. -/
def adjust_channel (buf : List Rgba) (c : Channel) (delta : Int) : List Rgba :=
  buf.map (fun p => p.setChannel c (clampAdd (p.getChannel c) delta))

/-- The blend modes the spec documents per-channel formulas for. -/
inductive BlendMode where
  | multiply
  | screen
  | overlay
  | difference
deriving DecidableEq, Repr

/-- The blend error of the spec's error taxonomy. -/
inductive BlendError where
  | DimensionMismatch
deriving DecidableEq, Repr

/-- Modelled from the spec: the documented per-channel blend formulas
(multiply = a*b/255, screen = 255-((255-a)*(255-b)/255), overlay branches on
bottom ≤ 127 vs > 127, difference = |a-b|). -/
def blendChannelVal (m : BlendMode) (a b : Nat) : Nat :=
  match m with
  | BlendMode.multiply => a * b / 255
  | BlendMode.screen => 255 - (255 - a) * (255 - b) / 255
  | BlendMode.overlay =>
    if b ≤ 127 then 2 * a * b / 255 else 255 - 2 * (255 - a) * (255 - b) / 255
  | BlendMode.difference => max a b - min a b

/-- Blends two flat RGBA byte sequences channel by channel; the byte at a
flat offset congruent to 3 mod 4 is an alpha sample and is taken from the
top image, per the spec's default output-alpha rule. -/
def blendBytes (m : BlendMode) : Nat → List Nat → List Nat → List Nat
  | i, t :: ts, b :: bs =>
    (if i % 4 = 3 then t else blendChannelVal m t b) :: blendBytes m (i + 1) ts bs
  | _, _, _ => []

/-- Modelled from the spec: `blend(top, bottom, mode)` from the blend engine
(not under src/) requires identical dimensions and otherwise fails with
DimensionMismatch, without touching either input. -/
def blend (top bottom : PhotonImage) (m : BlendMode) :
    Except BlendError PhotonImage :=
  if top.width = bottom.width ∧ top.height = bottom.height then
    Except.ok
      { raw_pixels := blendBytes m 0 top.raw_pixels bottom.raw_pixels,
        width := top.width, height := top.height }
  else
    Except.error BlendError.DimensionMismatch

/-- The standard base64 alphabet used by `base64::encode`. -/
def base64Alphabet : List Char :=
  "ABCDEFGHIJKLMNOPQRSTUVWXYZabcdefghijklmnopqrstuvwxyz0123456789+/".toList

/-- Maps a 6-bit value to its base64 digit. -/
def sextet (n : Nat) : Char := base64Alphabet.getD n 'A'

/-- Encodes a final chunk of at most three bytes into four base64 digits,
padding with '=' as the standard encoding does. -/
def encodeChunk : List Nat → List Char
  | [a] => [sextet (a / 4), sextet (a % 4 * 16), '=', '=']
  | [a, b] => [sextet (a / 4), sextet (a % 4 * 16 + b / 16), sextet (b % 16 * 4), '=']
  | [a, b, c] =>
    [sextet (a / 4), sextet (a % 4 * 16 + b / 16), sextet (b % 16 * 4 + c / 64),
     sextet (c % 64)]
  | _ => []

/-- Embeds `base64::encode` (standard config, no line wrapping): bytes are
consumed three at a time. -/
def base64Encode : List Nat → List Char
  | [] => []
  | [a] => encodeChunk [a]
  | [a, b] => encodeChunk [a, b]
  | a :: b :: c :: rest => encodeChunk [a, b, c] ++ base64Encode rest

/-- Embeds `str::replace("\r\n", "")`: removes every non-overlapping
occurrence of the two-character sequence, scanning left to right. -/
def replaceCRLF : List Char → List Char
  | [] => []
  | [c] => [c]
  | c1 :: c2 :: rest =>
    if c1 = '\r' ∧ c2 = '\n' then replaceCRLF rest
    else c1 :: replaceCRLF (c2 :: rest)
termination_by l => l.length

/-- Embeds `PhotonImage::get_base64`, parameterized over the external PNG
serializer (`img.write_to(..., Png)`); the result is modelled as the list of
characters of the returned string. -/
def PhotonImage.get_base64 (png_encode : PhotonImage → List Nat)
    (img : PhotonImage) : List Char :=
  "data:image/png;base64,".toList ++ replaceCRLF (base64Encode (png_encode img))

/-- Swapping the same two channels of one pixel twice restores the pixel. -/
theorem swapPixel_involutive (p : Rgba) (a b : Channel) :
    swapPixel (swapPixel p a b) a b = p := by
  cases a <;> cases b <;> cases p <;>
    simp [swapPixel, Rgba.getChannel, Rgba.setChannel]

/-- Distinct channels do not interfere through `setChannel`. -/
theorem getChannel_setChannel_ne (p : Rgba) (c c' : Channel) (v : Nat)
    (h : c' ≠ c) : (p.setChannel c v).getChannel c' = p.getChannel c' := by
  cases c <;> cases c' <;> simp_all [Rgba.getChannel, Rgba.setChannel]

/-- Reading back the channel just written returns the written value. -/
theorem getChannel_setChannel_eq (p : Rgba) (c : Channel) (v : Nat) :
    (p.setChannel c v).getChannel c = v := by
  cases c <;> simp [Rgba.getChannel, Rgba.setChannel]

/-- C1 (counterexample): `PhotonImage::new` performs no validation, so the
claimed invariant `len(raw_pixels) = w * h * 4` fails for the empty buffer
with dimensions 1 × 1. -/
theorem new_invariant_fails_on_empty_buffer :
    ¬ ((PhotonImage.new [] 1 1).raw_pixels.length = 1 * 1 * 4) := by
  decide

/-- C1 (amended): `PhotonImage::new` stores the supplied buffer unchanged, so
an image it returns satisfies `len(raw_pixels) = w * h * 4` exactly when the
caller supplies a buffer of that length. -/
theorem new_preserves_invariant (p : List Nat) (w h : Nat)
    (hp : p.length = w * h * 4) :
    (PhotonImage.new p w h).raw_pixels.length = w * h * 4 := by
  simpa [PhotonImage.new] using hp

/-- C1 witness: a concrete 1 × 1 buffer of length 4 yields the invariant. -/
theorem new_preserves_invariant_witness :
    (PhotonImage.new [0, 0, 0, 0] 1 1).raw_pixels.length = 1 * 1 * 4 :=
  new_preserves_invariant [0, 0, 0, 0] 1 1 (by decide)

/-- C2: the `From<Vec<u8>>` conversions for `Rgb` and `Rgba` fail exactly when
the vector's length is not 3 (resp. 4); on the correct length they succeed
with components taken from the vector in order, unmodified. -/
theorem from_vec_spec (v : List Nat) :
    ((Rgb.from_vec v = none ↔ v.length ≠ 3)
      ∧ (v.length = 3 →
          Rgb.from_vec v = some (Rgb.new (v.getD 0 0) (v.getD 1 0) (v.getD 2 0))))
    ∧ ((Rgba.from_vec v = none ↔ v.length ≠ 4)
      ∧ (v.length = 4 →
          Rgba.from_vec v =
            some (Rgba.new (v.getD 0 0) (v.getD 1 0) (v.getD 2 0) (v.getD 3 0)))) := by
  refine ⟨⟨?_, ?_⟩, ⟨?_, ?_⟩⟩ <;> simp [Rgb.from_vec, Rgba.from_vec]

/-- C2 witness: concrete conversions at the correct lengths. -/
theorem from_vec_spec_witness :
    Rgb.from_vec [10, 20, 30] = some (Rgb.new 10 20 30)
    ∧ Rgba.from_vec [1, 2, 3, 4] = some (Rgba.new 1 2 3 4) :=
  ⟨by simpa using (from_vec_spec [10, 20, 30]).1.2 (by decide),
   by simpa using (from_vec_spec [1, 2, 3, 4]).2.2 (by decide)⟩

/-- C3: whenever the external decode step fails (corrupt or unsupported
input), `new_from_byteslice`, `base64_to_vec`, `base64_to_image` and
`new_from_base64` all surface the failure to the caller; none of them
recovers silently with a substitute image. -/
theorem decode_failure_is_surfaced
    (decode : String → Option (List Nat))
    (load_from_memory : List Nat → Option DecodedImage)
    (v : List Nat) (s : String) :
    (load_from_memory v = none →
      PhotonImage.new_from_byteslice load_from_memory v = none)
    ∧ (decode s = none → base64_to_vec decode s = none)
    ∧ (decode s = none → base64_to_image decode load_from_memory s = none)
    ∧ (∀ bytes, decode s = some bytes → load_from_memory bytes = none →
        base64_to_image decode load_from_memory s = none)
    ∧ (decode s = none →
        PhotonImage.new_from_base64 decode load_from_memory s = none) := by
  refine ⟨?_, ?_, ?_, ?_, ?_⟩
  · intro hl
    simp [PhotonImage.new_from_byteslice, hl]
  · intro hd
    simp [base64_to_vec, hd]
  · intro hd
    simp [base64_to_image, base64_to_vec, hd]
  · intro bytes hd hl
    simp [base64_to_image, base64_to_vec, hd, hl]
  · intro hd
    simp [PhotonImage.new_from_base64, base64_to_image, base64_to_vec, hd]

/-- C3 witness: a concrete always-failing codec propagates the failure
through every entry point. -/
theorem decode_failure_is_surfaced_witness :
    PhotonImage.new_from_byteslice (fun _ => none) [1, 2, 3] = none
    ∧ base64_to_vec (fun _ => none) "abcd" = none
    ∧ base64_to_image (fun _ => none) (fun _ => none) "abcd" = none := by
  have h := decode_failure_is_surfaced (fun _ => none) (fun _ => none) [1, 2, 3] "abcd"
  exact ⟨h.1 rfl, h.2.1 rfl, h.2.2.1 rfl⟩

/-- C7: `PhotonImage::new` followed by the accessors returns exactly the
constructor arguments. -/
theorem new_accessors (p : List Nat) (w h : Nat) :
    (PhotonImage.new p w h).get_width = w
    ∧ (PhotonImage.new p w h).get_height = h
    ∧ (PhotonImage.new p w h).get_raw_pixels = p :=
  ⟨rfl, rfl, rfl⟩

/-- C9: every channel setter of `Rgb` and `Rgba` makes its own getter return
the written value and leaves every other channel unchanged. -/
theorem setters_frame (c : Rgb) (d : Rgba) (v : Nat) :
    ((c.set_red v).get_red = v ∧ (c.set_red v).get_green = c.get_green
      ∧ (c.set_red v).get_blue = c.get_blue)
    ∧ ((c.set_green v).get_green = v ∧ (c.set_green v).get_red = c.get_red
      ∧ (c.set_green v).get_blue = c.get_blue)
    ∧ ((c.set_blue v).get_blue = v ∧ (c.set_blue v).get_red = c.get_red
      ∧ (c.set_blue v).get_green = c.get_green)
    ∧ ((d.set_red v).get_red = v ∧ (d.set_red v).get_green = d.get_green
      ∧ (d.set_red v).get_blue = d.get_blue ∧ (d.set_red v).get_alpha = d.get_alpha)
    ∧ ((d.set_green v).get_green = v ∧ (d.set_green v).get_red = d.get_red
      ∧ (d.set_green v).get_blue = d.get_blue ∧ (d.set_green v).get_alpha = d.get_alpha)
    ∧ ((d.set_blue v).get_blue = v ∧ (d.set_blue v).get_red = d.get_red
      ∧ (d.set_blue v).get_green = d.get_green ∧ (d.set_blue v).get_alpha = d.get_alpha)
    ∧ ((d.set_alpha v).get_alpha = v ∧ (d.set_alpha v).get_red = d.get_red
      ∧ (d.set_alpha v).get_green = d.get_green ∧ (d.set_alpha v).get_blue = d.get_blue) :=
  ⟨⟨rfl, rfl, rfl⟩, ⟨rfl, rfl, rfl⟩, ⟨rfl, rfl, rfl⟩,
   ⟨rfl, rfl, rfl, rfl⟩, ⟨rfl, rfl, rfl, rfl⟩, ⟨rfl, rfl, rfl, rfl⟩,
   ⟨rfl, rfl, rfl, rfl⟩⟩

/-- C4: swapping the same pair of channels twice reproduces the original
buffer exactly, for every buffer and every pair of channel selectors. -/
theorem swap_channels_involutive (buf : List Rgba) (a b : Channel) :
    swap_channels (swap_channels buf a b) a b = buf := by
  unfold swap_channels
  rw [List.map_map]
  have hcomp : ((fun p => swapPixel p a b) ∘ fun p => swapPixel p a b) = id := by
    funext p
    simp [Function.comp, swapPixel_involutive]
  rw [hcomp, List.map_id]

/-- C5: `adjust_channel` rewrites every pixel's selected channel to the
delta-shifted value clamped to [0,255], leaves the other channels unchanged,
and the clamp saturates at 0 below and at 255 above (never wraps); in
particular delta = +300 on a channel at 250 yields 255. -/
theorem adjust_channel_spec (buf : List Rgba) (c : Channel) (d : Int)
    (i : Nat) (h : i < buf.length) :
    (adjust_channel buf c d).length = buf.length
    ∧ ((adjust_channel buf c d).getD i (Rgba.new 0 0 0 0)).getChannel c
        = clampAdd ((buf.getD i (Rgba.new 0 0 0 0)).getChannel c) d
    ∧ (∀ c', c' ≠ c →
        ((adjust_channel buf c d).getD i (Rgba.new 0 0 0 0)).getChannel c'
          = (buf.getD i (Rgba.new 0 0 0 0)).getChannel c')
    ∧ (∀ v : Nat, clampAdd v d ≤ 255)
    ∧ (∀ v : Nat, (v : Int) + d ≤ 0 → clampAdd v d = 0)
    ∧ (∀ v : Nat, 255 ≤ (v : Int) + d → clampAdd v d = 255)
    ∧ clampAdd 250 300 = 255 := by
  have hg : buf[i]? = some (buf.get ⟨i, h⟩) := List.getElem?_eq_getElem h
  refine ⟨?_, ?_, ?_, ?_, ?_, ?_, ?_⟩
  · simp [adjust_channel]
  · simp [adjust_channel, List.getD, List.getElem?_map, hg, getChannel_setChannel_eq]
  · intro c' hne
    simp [adjust_channel, List.getD, List.getElem?_map, hg,
      getChannel_setChannel_ne _ _ _ _ hne]
  · intro v
    unfold clampAdd
    omega
  · intro v hv
    unfold clampAdd
    omega
  · intro v hv
    unfold clampAdd
    omega
  · decide

/-- C5 witness: on the one-pixel buffer with red channel 250, adjusting the
red channel by +300 saturates at 255. -/
theorem adjust_channel_spec_witness :
    ((adjust_channel [Rgba.new 250 0 0 0] Channel.red 300).getD 0
        (Rgba.new 0 0 0 0)).getChannel Channel.red = clampAdd 250 300
    ∧ clampAdd 250 300 = 255 := by
  have h := adjust_channel_spec [Rgba.new 250 0 0 0] Channel.red 300 0 (by decide)
  exact ⟨h.2.1, h.2.2.2.2.2.2⟩

/-- C6: blending two buffers of unequal width or height fails with
DimensionMismatch for every blend mode (the pure model returns only the
error, so neither input is modified). -/
theorem blend_dimension_mismatch (top bottom : PhotonImage) (m : BlendMode)
    (h : top.width ≠ bottom.width ∨ top.height ≠ bottom.height) :
    blend top bottom m = Except.error BlendError.DimensionMismatch := by
  have hne : ¬ (top.width = bottom.width ∧ top.height = bottom.height) := by
    tauto
  simp [blend, hne]

/-- C6 witness: blending a 1 × 1 image with a 2 × 1 image fails with
DimensionMismatch. -/
theorem blend_dimension_mismatch_witness :
    blend (PhotonImage.new [0, 0, 0, 0] 1 1)
        (PhotonImage.new [0, 0, 0, 0, 0, 0, 0, 0] 2 1) BlendMode.multiply
      = Except.error BlendError.DimensionMismatch :=
  blend_dimension_mismatch _ _ _ (Or.inl (by decide))

/-- A lookup in a carriage-return-free list with a carriage-return-free
default never yields a carriage return. -/
theorem getD_ne_cr (l : List Char) (n : Nat) (d : Char)
    (hl : ∀ c ∈ l, c ≠ '\r') (hd : d ≠ '\r') : l.getD n d ≠ '\r' := by
  induction l generalizing n with
  | nil => simpa [List.getD] using hd
  | cons x xs ih =>
    cases n with
    | zero => simpa [List.getD] using hl x (by simp)
    | succ m =>
      simp only [List.getD_cons_succ]
      exact ih m (fun c hc => hl c (by simp [hc]))

/-- Base64 digits are never a carriage return. -/
theorem sextet_ne_cr (n : Nat) : sextet n ≠ '\r' :=
  getD_ne_cr base64Alphabet n 'A' (by decide) (by decide)

/-- No character of an encoded chunk is a carriage return. -/
theorem mem_encodeChunk_ne_cr (chunk : List Nat) :
    ∀ c ∈ encodeChunk chunk, c ≠ '\r' := by
  match chunk with
  | [] => simp [encodeChunk]
  | [a] =>
    intro c hc
    simp only [encodeChunk, List.mem_cons, List.not_mem_nil, or_false] at hc
    rcases hc with h | h | h | h <;> subst h <;> first | apply sextet_ne_cr | decide
  | [a, b] =>
    intro c hc
    simp only [encodeChunk, List.mem_cons, List.not_mem_nil, or_false] at hc
    rcases hc with h | h | h | h <;> subst h <;> first | apply sextet_ne_cr | decide
  | [a, b, c0] =>
    intro c hc
    simp only [encodeChunk, List.mem_cons, List.not_mem_nil, or_false] at hc
    rcases hc with h | h | h | h <;> subst h <;> apply sextet_ne_cr
  | a :: b :: c0 :: d :: rest => simp [encodeChunk]

/-- No character of a base64 encoding is a carriage return. -/
theorem mem_base64Encode_ne_cr (bs : List Nat) :
    ∀ c ∈ base64Encode bs, c ≠ '\r' := by
  match bs with
  | [] => simp [base64Encode]
  | [a] =>
    intro c hc
    exact mem_encodeChunk_ne_cr [a] c (by simpa [base64Encode] using hc)
  | [a, b] =>
    intro c hc
    exact mem_encodeChunk_ne_cr [a, b] c (by simpa [base64Encode] using hc)
  | a :: b :: c0 :: rest =>
    intro c hc
    rw [base64Encode] at hc
    rcases List.mem_append.mp hc with h | h
    · exact mem_encodeChunk_ne_cr [a, b, c0] c h
    · exact mem_base64Encode_ne_cr rest c h

/-- Removing CRLF pairs from a carriage-return-free list is the identity. -/
theorem replaceCRLF_eq_self (l : List Char) (hl : ∀ c ∈ l, c ≠ '\r') :
    replaceCRLF l = l := by
  match l with
  | [] => rw [replaceCRLF]
  | [c] => rw [replaceCRLF]
  | c1 :: c2 :: rest =>
    have h1 : c1 ≠ '\r' := hl c1 (by simp)
    rw [replaceCRLF, if_neg (by tauto)]
    congr 1
    exact replaceCRLF_eq_self (c2 :: rest) (fun c hc => hl c (by simp_all))
termination_by l.length

/-- C8: `get_base64` returns exactly the data-URI prefix
"data:image/png;base64," followed by the base64 encoding of the
PNG-serialized image (the CRLF strip in the source is a no-op because the
encoding contains no carriage return). -/
theorem get_base64_format (png_encode : PhotonImage → List Nat)
    (img : PhotonImage) :
    PhotonImage.get_base64 png_encode img
      = "data:image/png;base64,".toList ++ base64Encode (png_encode img)
    ∧ (PhotonImage.get_base64 png_encode img).take 22
      = "data:image/png;base64,".toList := by
  have heq : PhotonImage.get_base64 png_encode img
      = "data:image/png;base64,".toList ++ base64Encode (png_encode img) := by
    unfold PhotonImage.get_base64
    congr 1
    exact replaceCRLF_eq_self _ (mem_base64Encode_ne_cr _)
  refine ⟨heq, ?_⟩
  rw [heq, show (22 : Nat) = ("data:image/png;base64,".toList).length from rfl,
    List.take_left]

/-- C10: `PhotonImage::new_from_base64` and `base64_to_image` agree on every
input (the former delegates to the latter). -/
theorem new_from_base64_eq_base64_to_image
    (decode : String → Option (List Nat))
    (load_from_memory : List Nat → Option DecodedImage)
    (s : String) :
    PhotonImage.new_from_base64 decode load_from_memory s
      = base64_to_image decode load_from_memory s := rfl

end Photon
